import Mathlib

/-!
# Verification of the codevf-sdk-python request-validation core

A shallow embedding, in Lean 4, of the validation / normalization /
error-mapping layer of the `codevf` Python SDK, together with theorems
settling the specification claims about it.

Conventions of the embedding:

* Python `str` values are Lean `String` (a sequence of Unicode scalar
  values, matching Python code points; lone surrogates are not
  representable and are outside the model).
* Python functions that can `raise` are embedded as `Except`-valued
  functions; returning `.error e` means the Python code raises before
  anything else (in particular, before any network call) and `.ok v`
  means the function returns `v` (for `Tasks.create`, `.ok payload`
  means the payload is handed to the HTTP transport).
* `dict[str, Any]` values are association lists with unique keys, the
  order being Python's insertion order.
* CPython is taken at version 3.11 (the version the repository is run
  with here); `base64.b64decode(s, validate=True)` therefore has the
  `binascii.a2b_base64(strict_mode=True)` semantics.
-/

namespace CodeVF

/-! ## Python string primitives -/

/-- ASCII lowercasing of one character.  `str.lower()` in Python also
lowercases non-ASCII letters; every string the theorems below touch is
ASCII, and the same model function is used on both the code side and the
spec side, so the restriction is harmless. -/
def pyLowerChar (c : Char) : Char :=
  if 65 ≤ c.toNat ∧ c.toNat ≤ 90 then Char.ofNat (c.toNat + 32) else c

/-- `s.lower()` (ASCII fragment, see `pyLowerChar`). -/
def pyLower (s : String) : String :=
  ⟨s.data.map pyLowerChar⟩

/-- `s.endswith(suffix)` on Python strings (code-point suffix test). -/
def pyEndsWith (s suffix : String) : Bool :=
  suffix.data.isSuffixOf s.data

/-- Number of bytes of the UTF-8 encoding of one Unicode scalar value. -/
def utf8Size (c : Char) : Nat :=
  if c.toNat < 0x80 then 1
  else if c.toNat < 0x800 then 2
  else if c.toNat < 0x10000 then 3
  else 4

/-- `len(s.encode("utf-8"))`. -/
def pyUtf8Len (s : String) : Nat :=
  (s.data.map utf8Size).sum

/-- The characters matched by Python's regex `\s` on `str` (verified by
enumerating all code points against CPython 3.11 `re`). -/
def pyIsSpace (c : Char) : Bool :=
  let n := c.toNat
  (9 ≤ n ∧ n ≤ 13) || (28 ≤ n ∧ n ≤ 32) || n = 0x85 || n = 0xa0 ||
  n = 0x1680 || (0x2000 ≤ n ∧ n ≤ 0x200a) || n = 0x2028 || n = 0x2029 ||
  n = 0x202f || n = 0x205f || n = 0x3000

/-- `re.sub(r"\s+", "", s)`: remove every whitespace character. -/
def pyStripSpace (s : String) : String :=
  ⟨s.data.filter (fun c => !pyIsSpace c)⟩

/-! ## base64 strict validation

`base64.b64decode(content, validate=True)` in CPython 3.11 delegates to
`binascii.a2b_base64(strict_mode=True)`.  Its success condition, for an
input string `s` (after the implicit `s.encode("ascii")`, whose failure
on non-ASCII input is a `ValueError` and is caught by the caller the
same way): `s` must split as a block `w` of base64-alphabet characters
followed by a block `p` of `=` characters only, with

* `|w| % 4 = 0`: any number of trailing pads accepted (pads seen while a
  quad is complete are ignored), except that a pad with no preceding
  data at all ("leading padding") is rejected;
* `|w| % 4 = 1`: always rejected;
* `|w| % 4 = 2`: accepted exactly when `|p| = 2`;
* `|w| % 4 = 3`: accepted exactly when `|p| = 1`.

(Checked against CPython 3.11 on the boundary cases, e.g. `"ABCD==="`
decodes, `"AB==="` is "Excess data after padding", `"AB=A"` is
"Discontinuous padding", `"="` is "Leading padding".)  Every character
other than alphabet-then-pads (whitespace included) is rejected in
strict mode. -/

/-- Membership in the base64 alphabet `A-Z a-z 0-9 + /`. -/
def isB64Char (c : Char) : Bool :=
  (65 ≤ c.toNat ∧ c.toNat ≤ 90) || (97 ≤ c.toNat ∧ c.toNat ≤ 122) ||
  (48 ≤ c.toNat ∧ c.toNat ≤ 57) || c = '+' || c = '/'

/-- Success of `base64.b64decode(s, validate=True)` (CPython 3.11). -/
def b64StrictValid (s : String) : Bool :=
  let cs := s.data
  let w := cs.takeWhile (fun c => c ≠ '=')
  let p := cs.drop w.length
  w.all isB64Char && p.all (fun c => c = '=') &&
  (match w.length % 4 with
   | 0 => w.length != 0 || p.length == 0
   | 2 => p.length == 2
   | 3 => p.length == 1
   | _ => false)

/-! ## Attachment classifier/validator (`codevf/models/attachment.py`) -/

/-- `MAX_TEXT_BYTES` in `codevf/models/attachment.py`. -/
def MAX_TEXT_BYTES : Nat := 1048576

/-- `MAX_BINARY_BYTES` in `codevf/models/attachment.py`. -/
def MAX_BINARY_BYTES : Nat := 10485760

/-- The dataclass `AttachmentCategory`. -/
structure AttachmentCategory where
  name : String
  extensions : List String
  mimeTypes : List String
  maxBytes : Nat
  requiresBase64 : Bool
  deriving DecidableEq, Repr

/-- `AttachmentCategory.matches(file_name, mime_type)`: the lowercased
file name ends with `"." + ext` for some non-empty declared extension,
or the mime type occurs (exactly, case-sensitively) in the declared
mime-type list. -/
def AttachmentCategory.mtch (cat : AttachmentCategory) (fileName mimeType : String) : Bool :=
  cat.extensions.any (fun ext => ext ≠ "" && pyEndsWith (pyLower fileName) ("." ++ ext)) ||
  cat.mimeTypes.contains mimeType

/-- `IMAGE_CATEGORY`. -/
def IMAGE_CATEGORY : AttachmentCategory :=
  { name := "image"
    extensions := ["png", "jpg", "jpeg", "gif", "webp"]
    mimeTypes := ["image/png", "image/jpeg", "image/gif", "image/webp"]
    maxBytes := MAX_BINARY_BYTES
    requiresBase64 := true }

/-- `PDF_CATEGORY`. -/
def PDF_CATEGORY : AttachmentCategory :=
  { name := "pdf"
    extensions := ["pdf"]
    mimeTypes := ["application/pdf"]
    maxBytes := MAX_BINARY_BYTES
    requiresBase64 := true }

/-- `CODE_CATEGORY`. -/
def CODE_CATEGORY : AttachmentCategory :=
  { name := "code"
    extensions := ["py", "js", "ts", "java", "cpp", "c", "cs", "go", "rs", "kt",
                   "swift", "php", "rb", "jsx", "tsx"]
    mimeTypes := ["text/x-python", "application/javascript", "text/typescript",
                  "text/x-java-source", "text/plain", "application/x-c++src",
                  "text/x-csrc", "text/x-csharp", "text/x-go", "text/x-rustsrc",
                  "text/x-kotlin", "text/x-php", "text/x-ruby"]
    maxBytes := MAX_TEXT_BYTES
    requiresBase64 := false }

/-- `TEXT_CATEGORY`. -/
def TEXT_CATEGORY : AttachmentCategory :=
  { name := "text"
    extensions := ["txt", "json", "xml", "csv", "log"]
    mimeTypes := ["text/plain", "application/json", "text/xml", "application/xml",
                  "text/csv"]
    maxBytes := MAX_TEXT_BYTES
    requiresBase64 := false }

/-- `ALL_CATEGORIES`, in the priority order of the source tuple. -/
def ALL_CATEGORIES : List AttachmentCategory :=
  [IMAGE_CATEGORY, PDF_CATEGORY, CODE_CATEGORY, TEXT_CATEGORY]

/-- All attachment-shape failures raise `AttachmentTooLargeError(msg)`
(the class is reused for every attachment error). -/
inductive AttachError where
  | attachmentTooLarge (msg : String)
  deriving DecidableEq, Repr

/-- The `for category in ALL_CATEGORIES: if category.matches(...)`
loop of `Attachment._select_category`, returning its first match. -/
def findCategory : List AttachmentCategory → String → String → Option AttachmentCategory
  | [], _, _ => none
  | cat :: rest, fileName, mimeType =>
      if cat.mtch fileName mimeType then some cat
      else findCategory rest fileName mimeType

/-- `Attachment._select_category(file_name, mime_type)`. -/
def selectCategory (fileName mimeType : String) : Except AttachError AttachmentCategory :=
  match findCategory ALL_CATEGORIES fileName mimeType with
  | some cat => .ok cat
  | none =>
      if pyEndsWith (pyLower fileName) ".pdf" then .ok PDF_CATEGORY
      else if pyEndsWith (pyLower fileName) ".txt" || pyEndsWith (pyLower fileName) ".log" then
        .ok TEXT_CATEGORY
      else
        .error (.attachmentTooLarge
          ("Unsupported attachment type: \x27" ++ fileName ++ "\x27 (" ++ mimeType ++ ")."))

/-- `Attachment._calculate_bytes(content, requires_base64)`. -/
def calculateBytes (content : String) (requiresBase64 : Bool) : Nat :=
  if requiresBase64 then pyUtf8Len (pyStripSpace content) else pyUtf8Len content

/-- `Attachment._validate_content` for an attachment with the given
file name, category and content.  `.ok ()` means the attachment is
accepted; `.error` is the raised `AttachmentTooLargeError`. -/
def validateContent (fileName : String) (cat : AttachmentCategory) (content : String) :
    Except AttachError Unit :=
  let size := calculateBytes content cat.requiresBase64
  if size > cat.maxBytes then
    .error (.attachmentTooLarge
      (fileName ++ " exceeds the " ++ toString cat.maxBytes ++ " byte limit for " ++
        cat.name ++ " files."))
  else if cat.requiresBase64 && !b64StrictValid content then
    .error (.attachmentTooLarge
      (fileName ++ " must be valid base64 when uploading " ++ cat.name ++ " files."))
  else
    .ok ()

/-- Spec-side category matching for claim C8: the lowercased file name
ends with one of the category's extensions, or the mime type is in the
declared list (no non-emptiness guard: the claim does not mention one,
and all declared extensions are non-empty). -/
def specMtch (cat : AttachmentCategory) (fileName mimeType : String) : Bool :=
  cat.extensions.any (fun ext => pyEndsWith (pyLower fileName) ("." ++ ext)) ||
  cat.mimeTypes.contains mimeType

/-- Spec-side category selection for claim C8: try Image, PDF, Code,
Text in fixed priority order (first match wins), then extension-based
fallbacks for `.pdf`, `.txt`, `.log`, else the unsupported-type error
raised as `AttachmentTooLarge`. -/
def specSelectCategory (fileName mimeType : String) : Except AttachError AttachmentCategory :=
  if specMtch IMAGE_CATEGORY fileName mimeType then .ok IMAGE_CATEGORY
  else if specMtch PDF_CATEGORY fileName mimeType then .ok PDF_CATEGORY
  else if specMtch CODE_CATEGORY fileName mimeType then .ok CODE_CATEGORY
  else if specMtch TEXT_CATEGORY fileName mimeType then .ok TEXT_CATEGORY
  else if pyEndsWith (pyLower fileName) ".pdf" then .ok PDF_CATEGORY
  else if pyEndsWith (pyLower fileName) ".txt" || pyEndsWith (pyLower fileName) ".log" then
    .ok TEXT_CATEGORY
  else
    .error (.attachmentTooLarge
      ("Unsupported attachment type: \x27" ++ fileName ++ "\x27 (" ++ mimeType ++ ")."))

/-! ## Error mapper (`codevf/client.py`, `CodeVFClient._resolve_exception_class`) -/

/-- The exception classes of `codevf/exceptions.py` that the error
mapper can select (each is a subclass of `APIError`; `apiError` is the
generic base class itself). -/
inductive ExcKind where
  | apiError
  | authentication
  | notFound
  | rateLimit
  | server
  | badRequest
  | invalidMode
  | invalidTag
  | invalidMetadata
  | maxCreditsExceeded
  | attachmentLimitExceeded
  | attachmentTooLarge
  | idempotencyConflict
  | insufficientCredits
  | payloadTooLarge
  deriving DecidableEq, Repr

/-- `ERROR_CODE_EXCEPTION_MAP` from `codevf/client.py`. -/
def errorCodeExceptionMap : List (String × ExcKind) :=
  [("invalid_mode", .invalidMode),
   ("invalid_tag", .invalidTag),
   ("invalid_metadata", .invalidMetadata),
   ("max_credits_exceeded", .maxCreditsExceeded),
   ("attachment_limit_exceeded", .attachmentLimitExceeded),
   ("attachment_too_large", .attachmentTooLarge),
   ("idempotency_conflict", .idempotencyConflict),
   ("insufficient_credits", .insufficientCredits),
   ("token_expired", .authentication),
   ("rate_limit_exceeded", .rateLimit)]

/-- `CodeVFClient._resolve_exception_class(status_code, error_code)`.
The `error_code` argument is `Optional[str]` (`none` models Python
`None`); `(error_code or "").lower()` maps `None` to `""`. -/
def resolveExceptionClass (statusCode : Int) (errorCode : Option String) : ExcKind :=
  if statusCode = 401 ∨ statusCode = 403 then .authentication
  else if statusCode = 404 then .notFound
  else if statusCode = 429 then .rateLimit
  else if statusCode = 413 then .payloadTooLarge
  else if 500 ≤ statusCode ∧ statusCode < 600 then .server
  else
    (errorCodeExceptionMap.lookup (pyLower (errorCode.getD ""))).getD
      (if statusCode = 400 then .badRequest else .apiError)

/-- Spec-side restatement of the amended claim C2: the status rules are
applied first, and for every remaining status (not only 400) the
error-code table is consulted, the fallback being `BadRequest` for 400
and the generic `APIError` otherwise. -/
def specResolveAmended (statusCode : Int) (errorCode : Option String) : ExcKind :=
  if statusCode = 401 ∨ statusCode = 403 then .authentication
  else if statusCode = 404 then .notFound
  else if statusCode = 429 then .rateLimit
  else if statusCode = 413 then .payloadTooLarge
  else if 500 ≤ statusCode ∧ statusCode < 600 then .server
  else
    match errorCodeExceptionMap.lookup (pyLower (errorCode.getD "")) with
    | some k => k
    | none => if statusCode = 400 then .badRequest else .apiError

end CodeVF

/-- C2 counterexample: the claim says the error-code table is consulted
only when the status is 400 and that any other unmatched status (it
names 402 and 418) yields the generic `APIError` regardless of the
body's error code.  The code, however, consults the table for every
status that the status rules do not match: status 402 with error code
`invalid_tag` resolves to `InvalidTagError`, not to the generic
`APIError` (and likewise 418). -/
theorem C2_counterexample :
    CodeVF.resolveExceptionClass 402 (some "invalid_tag") = CodeVF.ExcKind.invalidTag ∧
    CodeVF.resolveExceptionClass 418 (some "invalid_tag") = CodeVF.ExcKind.invalidTag ∧
    CodeVF.ExcKind.invalidTag ≠ CodeVF.ExcKind.apiError := by
  refine ⟨rfl, rfl, ?_⟩
  decide

/-- C2 amended: for every HTTP status code and extracted error code, the
exception kind is chosen by first-match precedence on the status
(401/403 → Authentication, 404 → NotFound, 429 → RateLimit,
413 → PayloadTooLarge, [500,600) → Server); for every status not
matched by those rules — not only 400 — the (lower-cased) error code is
looked up in the service error-code table, an unknown or absent code
giving `BadRequest` when the status is 400 and the generic `APIError`
otherwise. -/
theorem C2_theorem (statusCode : Int) (errorCode : Option String) :
    CodeVF.resolveExceptionClass statusCode errorCode =
      CodeVF.specResolveAmended statusCode errorCode := by
  unfold CodeVF.resolveExceptionClass CodeVF.specResolveAmended
  split
  · rfl
  · split
    · rfl
    · split
      · rfl
      · split
        · rfl
        · split
          · rfl
          · cases List.lookup (CodeVF.pyLower (errorCode.getD ""))
              CodeVF.errorCodeExceptionMap <;> rfl

/-- C8: for every fileName/mimeType pair, `_select_category` chooses
exactly the category given by trying Image, PDF, Code, Text in fixed
priority order (matching on lowercased-extension suffix OR declared
mime type, first match winning), with extension fallbacks for
`.pdf`/`.txt`/`.log` and otherwise the unsupported-attachment-type
failure raised as `AttachmentTooLarge`; in particular a `.txt` file
with mime type `text/plain` is classified Code (which lists
`text/plain` and precedes Text), and an unmatchable pair fails. -/
theorem C8_theorem :
    (∀ fileName mimeType,
      CodeVF.selectCategory fileName mimeType =
        CodeVF.specSelectCategory fileName mimeType) ∧
    CodeVF.selectCategory "a.txt" "text/plain" = .ok CodeVF.CODE_CATEGORY ∧
    CodeVF.selectCategory "virus.exe" "application/octet-stream" =
      .error (.attachmentTooLarge
        "Unsupported attachment type: \x27virus.exe\x27 (application/octet-stream).") := by
  refine ⟨fun fileName mimeType => ?_, rfl, rfl⟩
  have e1 : CodeVF.AttachmentCategory.mtch CodeVF.IMAGE_CATEGORY fileName mimeType
      = CodeVF.specMtch CodeVF.IMAGE_CATEGORY fileName mimeType := rfl
  have e2 : CodeVF.AttachmentCategory.mtch CodeVF.PDF_CATEGORY fileName mimeType
      = CodeVF.specMtch CodeVF.PDF_CATEGORY fileName mimeType := rfl
  have e3 : CodeVF.AttachmentCategory.mtch CodeVF.CODE_CATEGORY fileName mimeType
      = CodeVF.specMtch CodeVF.CODE_CATEGORY fileName mimeType := rfl
  have e4 : CodeVF.AttachmentCategory.mtch CodeVF.TEXT_CATEGORY fileName mimeType
      = CodeVF.specMtch CodeVF.TEXT_CATEGORY fileName mimeType := rfl
  simp only [CodeVF.selectCategory, CodeVF.specSelectCategory, CodeVF.ALL_CATEGORIES,
    CodeVF.findCategory, e1, e2, e3, e4]
  cases CodeVF.specMtch CodeVF.IMAGE_CATEGORY fileName mimeType <;>
    cases CodeVF.specMtch CodeVF.PDF_CATEGORY fileName mimeType <;>
      cases CodeVF.specMtch CodeVF.CODE_CATEGORY fileName mimeType <;>
        cases CodeVF.specMtch CodeVF.TEXT_CATEGORY fileName mimeType <;>
          simp

/-- For a category that does not require base64 (text-like), content
validation succeeds exactly when the raw UTF-8 byte length is within
the category's byte limit. -/
theorem validateContent_text_like (fileName content : String) (cat : CodeVF.AttachmentCategory)
    (hreq : cat.requiresBase64 = false) :
    CodeVF.validateContent fileName cat content = .ok () ↔
      CodeVF.pyUtf8Len content ≤ cat.maxBytes := by
  unfold CodeVF.validateContent CodeVF.calculateBytes
  rw [hreq]
  by_cases h : CodeVF.pyUtf8Len content ≤ cat.maxBytes
  · simp [h, Nat.not_lt.mpr h]
  · simp [h, Nat.lt_of_not_le h]

/-- For a category that requires base64 (binary), content validation
succeeds exactly when the whitespace-stripped UTF-8 byte length is
within the limit and the content passes strict base64 validation. -/
theorem validateContent_binary (fileName content : String) (cat : CodeVF.AttachmentCategory)
    (hreq : cat.requiresBase64 = true) :
    CodeVF.validateContent fileName cat content = .ok () ↔
      CodeVF.pyUtf8Len (CodeVF.pyStripSpace content) ≤ cat.maxBytes ∧
        CodeVF.b64StrictValid content = true := by
  unfold CodeVF.validateContent CodeVF.calculateBytes
  rw [hreq]
  by_cases h : CodeVF.pyUtf8Len (CodeVF.pyStripSpace content) ≤ cat.maxBytes
  · by_cases hb : CodeVF.b64StrictValid content
    · simp [h, hb, Nat.not_lt.mpr h]
    · simp [h, hb, Nat.not_lt.mpr h]
  · simp [h, Nat.lt_of_not_le h]

/-- C3 counterexample: the claim says every size or encoding violation
raises `AttachmentTooLarge` "carrying the filename and the limit".  An
encoding violation (invalid base64 for a binary category) produces a
message that carries the filename but not the byte limit: for file
`a.png` (image category) with non-base64 content `!!!`, the raised
message is "a.png must be valid base64 when uploading image files.",
in which the limit 10485760 does not occur. -/
theorem C3_counterexample :
    CodeVF.validateContent "a.png" CodeVF.IMAGE_CATEGORY "!!!" =
      .error (.attachmentTooLarge "a.png must be valid base64 when uploading image files.") ∧
    ¬ ("10485760".data <:+: "a.png must be valid base64 when uploading image files.".data) := by
  refine ⟨rfl, ?_⟩
  decide

/-- C3 amended: a text-like attachment (Code or Text category) passes
content validation iff its raw UTF-8 length is at most 1,048,576 bytes;
a binary attachment (Image or PDF) passes iff its whitespace-stripped
content is at most 10,485,760 bytes and is valid (strict) base64, so
content exactly at the boundary passes.  A size violation raises
`AttachmentTooLarge` naming the filename and the byte limit; an
encoding violation raises `AttachmentTooLarge` naming the filename and
the category, but not the numeric limit. -/
theorem C3_theorem :
    (∀ fileName content : String,
      (CodeVF.validateContent fileName CodeVF.CODE_CATEGORY content = .ok () ↔
        CodeVF.pyUtf8Len content ≤ 1048576) ∧
      (CodeVF.validateContent fileName CodeVF.TEXT_CATEGORY content = .ok () ↔
        CodeVF.pyUtf8Len content ≤ 1048576) ∧
      (CodeVF.validateContent fileName CodeVF.IMAGE_CATEGORY content = .ok () ↔
        CodeVF.pyUtf8Len (CodeVF.pyStripSpace content) ≤ 10485760 ∧
          CodeVF.b64StrictValid content = true) ∧
      (CodeVF.validateContent fileName CodeVF.PDF_CATEGORY content = .ok () ↔
        CodeVF.pyUtf8Len (CodeVF.pyStripSpace content) ≤ 10485760 ∧
          CodeVF.b64StrictValid content = true)) ∧
    (∀ (fileName content : String) (cat : CodeVF.AttachmentCategory),
      cat.maxBytes < CodeVF.calculateBytes content cat.requiresBase64 →
      CodeVF.validateContent fileName cat content =
        .error (.attachmentTooLarge
          (fileName ++ " exceeds the " ++ toString cat.maxBytes ++ " byte limit for " ++
            cat.name ++ " files."))) ∧
    (∀ (fileName content : String) (cat : CodeVF.AttachmentCategory),
      CodeVF.calculateBytes content cat.requiresBase64 ≤ cat.maxBytes →
      cat.requiresBase64 = true →
      CodeVF.b64StrictValid content = false →
      CodeVF.validateContent fileName cat content =
        .error (.attachmentTooLarge
          (fileName ++ " must be valid base64 when uploading " ++ cat.name ++ " files."))) := by
  refine ⟨fun fileName content => ⟨?_, ?_, ?_, ?_⟩,
    fun fileName content cat h => ?_, fun fileName content cat h1 h2 h3 => ?_⟩
  · exact validateContent_text_like fileName content _ rfl
  · exact validateContent_text_like fileName content _ rfl
  · exact validateContent_binary fileName content _ rfl
  · exact validateContent_binary fileName content _ rfl
  · unfold CodeVF.validateContent
    rw [if_pos h]
  · unfold CodeVF.validateContent
    rw [if_neg (Nat.not_lt.mpr h1), if_pos]
    simp [h2, h3]

/-- C3 witness: the amended theorem applied at the concrete binary
attachment `a.png` with content `??` (within the size limit, invalid
base64). -/
theorem C3_witness :
    CodeVF.validateContent "a.png" CodeVF.IMAGE_CATEGORY "??" =
      .error (.attachmentTooLarge "a.png must be valid base64 when uploading image files.") :=
  C3_theorem.2.2 "a.png" "??" CodeVF.IMAGE_CATEGORY (by decide) rfl rfl

/-! ## Metadata validator (`codevf/utils/metadata.py`, `validate_metadata`) -/

/-- A Python object as observed by the `isinstance` checks of
`validate_metadata`: a string, a bool, an int, a (finite) float, `None`,
or any other object.  Python `bool` is a subclass of `int`, but `bool`
is listed in the accepted tuple anyway, so the constructor split is
faithful. -/
inductive PyObj where
  | pyStr (s : String)
  | pyBool (b : Bool)
  | pyInt (n : Int)
  | pyFloat (q : ℚ)
  | pyNone
  | pyOther
  deriving DecidableEq, Repr

namespace CodeVF

/-- A character matched by `[A-Za-z0-9_]` (an ASCII class in Python
`re` on `str`). -/
def isWordChar (c : Char) : Bool :=
  (65 ≤ c.toNat ∧ c.toNat ≤ 90) || (97 ≤ c.toNat ∧ c.toNat ≤ 122) ||
  (48 ≤ c.toNat ∧ c.toNat ≤ 57) || c = '_'

/-- `isinstance(key, str) and METADATA_KEY_PATTERN.fullmatch(key)` with
`METADATA_KEY_PATTERN = re.compile(r"^[A-Za-z0-9_]+$")`. -/
def metadataKeyOk : PyObj → Bool
  | .pyStr s => s.data ≠ [] && s.data.all isWordChar
  | _ => false

/-- `isinstance(value, (str, bool, int, float))`; `None` and every
other object are rejected. -/
def metadataValueOk : PyObj → Bool
  | .pyStr _ => true
  | .pyBool _ => true
  | .pyInt _ => true
  | .pyFloat _ => true
  | _ => false

/-- One metadata entry passes both the key and the value check. -/
def metadataEntryOk (kv : PyObj × PyObj) : Bool :=
  metadataKeyOk kv.1 && metadataValueOk kv.2

/-- `InvalidMetadataError(msg)`. -/
inductive MetaErr where
  | invalidMetadata (msg : String)
  deriving DecidableEq, Repr

/-- The `for key, value in metadata.items()` loop of
`validate_metadata`, rebuilding the `validated` dict entry by entry
(the defensive copy: the output mapping is constructed afresh). -/
def validateMetadataGo : List (PyObj × PyObj) → Except MetaErr (List (PyObj × PyObj))
  | [] => .ok []
  | (k, v) :: rest =>
      if !metadataKeyOk k then
        .error (.invalidMetadata "Metadata keys must be alphanumeric with optional underscores.")
      else if !metadataValueOk v then
        .error (.invalidMetadata "Metadata values must be strings, numbers, or booleans.")
      else
        (validateMetadataGo rest).map (fun r => (k, v) :: r)

/-- `validate_metadata(metadata)`: `None` passes through; a mapping
(association list with unique keys, in insertion order) is validated
entry by entry. -/
def validateMetadata : Option (List (PyObj × PyObj)) → Except MetaErr (Option (List (PyObj × PyObj)))
  | none => .ok none
  | some l => (validateMetadataGo l).map some

end CodeVF

/-- When all entries are valid, the validation loop returns exactly the
input entries (freshly rebuilt). -/
theorem validateMetadataGo_all_ok (l : List (PyObj × PyObj))
    (h : l.all CodeVF.metadataEntryOk = true) :
    CodeVF.validateMetadataGo l = .ok l := by
  induction l with
  | nil => rfl
  | cons kv rest ih =>
      rcases kv with ⟨k, v⟩
      rw [List.all_cons] at h
      rcases Bool.and_eq_true_iff.mp h with ⟨hkv, hrest⟩
      rcases Bool.and_eq_true_iff.mp hkv with ⟨hk, hv⟩
      unfold CodeVF.validateMetadataGo
      rw [hk, hv]
      simp [ih hrest, Except.map]

/-- When some entry is invalid, the validation loop raises
`InvalidMetadataError`. -/
theorem validateMetadataGo_violation (l : List (PyObj × PyObj))
    (h : l.all CodeVF.metadataEntryOk = false) :
    ∃ msg, CodeVF.validateMetadataGo l = .error (.invalidMetadata msg) := by
  induction l with
  | nil => simp at h
  | cons kv rest ih =>
      rcases kv with ⟨k, v⟩
      rw [List.all_cons] at h
      unfold CodeVF.validateMetadataGo
      cases hk : CodeVF.metadataKeyOk k with
      | false => exact ⟨_, rfl⟩
      | true =>
        cases hv : CodeVF.metadataValueOk v with
        | false => simp [hk]
        | true =>
          have hrest : rest.all CodeVF.metadataEntryOk = false := by
            simpa [CodeVF.metadataEntryOk, hk, hv] using h
          rcases ih hrest with ⟨msg, hmsg⟩
          exact ⟨msg, by simp [hk, hv, hmsg, Except.map]⟩

/-- C9: `validate_metadata` maps `None` to `None`; a mapping passes iff
every key is a string matching `^[A-Za-z0-9_]+$` and every value is a
string, boolean, integer or float (`None` values rejected), the result
then being a freshly built mapping with exactly the same entries; any
violation raises `InvalidMetadataError`. -/
theorem C9_theorem :
    CodeVF.validateMetadata none = .ok none ∧
    (∀ l, CodeVF.validateMetadata (some l) = .ok (some l) ↔
      l.all CodeVF.metadataEntryOk = true) ∧
    (∀ l, l.all CodeVF.metadataEntryOk = false →
      ∃ msg, CodeVF.validateMetadata (some l) = .error (.invalidMetadata msg)) := by
  refine ⟨rfl, fun l => ⟨fun hok => ?_, fun h => ?_⟩, fun l h => ?_⟩
  · by_contra hall
    rcases validateMetadataGo_violation l (Bool.eq_false_iff.mpr hall) with ⟨msg, hmsg⟩
    rw [CodeVF.validateMetadata, hmsg] at hok
    exact absurd hok (by simp [Except.map])
  · rw [CodeVF.validateMetadata, validateMetadataGo_all_ok l h]
    rfl
  · rcases validateMetadataGo_violation l h with ⟨msg, hmsg⟩
    exact ⟨msg, by rw [CodeVF.validateMetadata, hmsg]; rfl⟩

/-- C9 witness: the theorem applied at a concrete valid mapping and at
a concrete mapping with a `None` value. -/
theorem C9_witness :
    CodeVF.validateMetadata (some [(.pyStr "run_id", .pyInt 7)]) =
      .ok (some [(.pyStr "run_id", .pyInt 7)]) ∧
    ∃ msg, CodeVF.validateMetadata (some [(.pyStr "k", .pyNone)]) =
      .error (.invalidMetadata msg) :=
  ⟨(C9_theorem.2.1 [(.pyStr "run_id", .pyInt 7)]).mpr (by decide),
   C9_theorem.2.2 [(.pyStr "k", .pyNone)] (by decide)⟩

/-! ## Parsed JSON bodies and the response handler (`codevf/client.py`) -/

/-- A parsed JSON value as produced by `response.json()`.  Floats are
idealized as (finite) rationals; the non-standard `Infinity`/`NaN`
literals the Python parser tolerates are outside the model. -/
inductive JVal where
  | jStr (s : String)
  | jInt (n : Int)
  | jFloat (q : ℚ)
  | jBool (b : Bool)
  | jNull
  | jArr (xs : List JVal)
  | jObj (fields : List (String × JVal))

namespace CodeVF

/-- Python truthiness of a parsed JSON value. -/
def jTruthy : JVal → Bool
  | .jStr s => s != ""
  | .jInt n => n != 0
  | .jFloat q => q != 0
  | .jBool b => b
  | .jNull => false
  | .jArr xs => !xs.isEmpty
  | .jObj fs => !fs.isEmpty

/-- ASCII decimal digit. -/
def isAsciiDigit (c : Char) : Bool :=
  48 ≤ c.toNat ∧ c.toNat ≤ 57

/-- The digit sequence (with Python's single-underscore-between-digits
rule and the CPython 3.11 default 4300-digit conversion limit) accepted
by `int(str)` after sign stripping; ASCII digits only (exotic Unicode
digits are outside the model). -/
def parseUnderscoredDigits (cs : List Char) : Option Nat :=
  match cs.head?, cs.getLast? with
  | some h, some l =>
      if isAsciiDigit h && isAsciiDigit l &&
         cs.all (fun c => isAsciiDigit c || c = '_') &&
         (cs.zip cs.tail).all (fun p => !(p.1 = '_' && p.2 = '_')) then
        let ds := cs.filter isAsciiDigit
        if ds.length ≤ 4300 then
          some (ds.foldl (fun acc c => acc * 10 + (c.toNat - 48)) 0)
        else none
      else none
  | _, _ => none

/-- `int(s)` for a Python string: strip surrounding whitespace, an
optional sign, then underscored decimal digits; `none` is the raised
`ValueError`. -/
def pyIntOfStr (s : String) : Option Int :=
  let t := ((s.data.dropWhile pyIsSpace).reverse.dropWhile pyIsSpace).reverse
  match t with
  | '+' :: rest => (parseUnderscoredDigits rest).map (fun n => (n : Int))
  | '-' :: rest => (parseUnderscoredDigits rest).map (fun n => -(n : Int))
  | rest => (parseUnderscoredDigits rest).map (fun n => (n : Int))

/-- `int(x)` on a parsed JSON value; `none` is the raised
`TypeError`/`ValueError` (both caught by `_extract_error_payload`).
Floats truncate toward zero. -/
def pyIntOfJVal : JVal → Option Int
  | .jInt n => some n
  | .jBool b => some (if b then 1 else 0)
  | .jFloat q => some (q.num.tdiv (q.den : Int))
  | .jStr s => pyIntOfStr s
  | .jNull => none
  | .jArr _ => none
  | .jObj _ => none

/-- `CodeVFClient._extract_error_payload(data, fallback_status)`:
returns `(message, error_code, status)`.  The message and the error
code are arbitrary JSON values at runtime (the dict lookups are
untyped); the status has already been coerced with
`int(...)`-with-fallback. -/
def extractErrorPayload (data : JVal) (fallbackStatus : Int) : JVal × Option JVal × Int :=
  let defaultMsg : JVal := .jStr ("API request failed with status " ++ toString fallbackStatus)
  let triple : JVal × Option JVal × JVal :=
    match data with
    | .jObj fields =>
        match fields.lookup "error" with
        | some (.jObj efields) =>
            let st := (efields.lookup "status").getD (.jInt fallbackStatus)
            ((efields.lookup "message").getD defaultMsg,
             efields.lookup "code",
             if jTruthy st then st else .jInt fallbackStatus)
        | some (.jStr s) =>
            let st := (fields.lookup "status").getD (.jInt fallbackStatus)
            (.jStr s, none, if jTruthy st then st else .jInt fallbackStatus)
        | _ =>
            match fields.lookup "message" with
            | some m => (m, none, .jInt fallbackStatus)
            | none => (defaultMsg, none, .jInt fallbackStatus)
    | .jStr s => (if s != "" then .jStr s else defaultMsg, none, .jInt fallbackStatus)
    | _ => (defaultMsg, none, .jInt fallbackStatus)
  (triple.1, triple.2.1, (pyIntOfJVal triple.2.2).getD fallbackStatus)

/-- A Python exception escaping `_handle_response` that is not one of
the SDK's `APIError` classes: the `AttributeError` from
`(error_code or "").lower()` when the extracted code is truthy but not
a string. -/
inductive PyRunErr where
  | attributeError
  deriving DecidableEq, Repr

/-- `_resolve_exception_class` as called with the runtime (untyped)
error code: `(error_code or "").lower()` succeeds for a string or for
any falsy value (mapped to `""`), and raises `AttributeError` for a
truthy non-string. -/
def resolveExceptionClassJ (statusCode : Int) (errorCode : Option JVal) :
    Except PyRunErr ExcKind :=
  match errorCode with
  | some (.jStr s) => .ok (resolveExceptionClass statusCode (some s))
  | some v => if jTruthy v then .error .attributeError
              else .ok (resolveExceptionClass statusCode none)
  | none => .ok (resolveExceptionClass statusCode none)

/-- The exception object built by `raise exc_class(message, status, data)`:
its class, its message (`args[0]`, an arbitrary runtime value), its
`status_code` attribute and its `body` attribute. -/
structure RaisedError where
  kind : ExcKind
  message : JVal
  statusCode : Int
  body : JVal

/-- `CodeVFClient._handle_response` on an already-parsed body: a 2xx
status returns the body (`.inl`); otherwise the error payload is
extracted and the resolved exception is raised (`.inr`), unless the
resolution itself crashes with `AttributeError`. -/
def handleResponse (httpStatus : Int) (data : JVal) :
    Except PyRunErr (JVal ⊕ RaisedError) :=
  if 200 ≤ httpStatus ∧ httpStatus < 300 then .ok (.inl data)
  else
    match extractErrorPayload data httpStatus with
    | (message, errorCode, status) =>
        match resolveExceptionClassJ status errorCode with
        | .error e => .error e
        | .ok kind => .ok (.inr ⟨kind, message, status, data⟩)

/-- Spec-side status selection of claim C10: the body-supplied `status`
value coerced to int, overriding the HTTP status, with fallback to the
HTTP status when the value is absent, falsy, or not coercible. -/
def specBodyStatus (sv : Option JVal) (fallback : Int) : Int :=
  match sv with
  | none => fallback
  | some v => if jTruthy v then (pyIntOfJVal v).getD fallback else fallback

/-- Spec-side message extraction for claim C10 (the `error` sub-object
case): the error object's `message` entry, with the generic fallback
message naming the HTTP status. -/
def specMessage (efields : List (String × JVal)) (fallback : Int) : JVal :=
  (efields.lookup "message").getD
    (.jStr ("API request failed with status " ++ toString fallback))

/-- The error code as passed (after `or ""` and lowercasing) into the
exception-class table: `some` of the string, `none` when absent or
falsy (a truthy non-string crashes instead, see `codeLowerable`). -/
def specCodeStr : Option JVal → Option String
  | some (.jStr s) => some s
  | _ => none

/-- The extracted error code survives `(error_code or "").lower()`. -/
def codeLowerable : Option JVal → Bool
  | some (.jStr _) => true
  | some v => !jTruthy v
  | none => true

end CodeVF

/-- Status coercion agrees with the spec-side description. -/
theorem bodyStatus_coerce (sv : Option JVal) (fallback : Int) :
    (CodeVF.pyIntOfJVal
        (if CodeVF.jTruthy (sv.getD (.jInt fallback)) then sv.getD (.jInt fallback)
         else .jInt fallback)).getD fallback =
      CodeVF.specBodyStatus sv fallback := by
  cases sv with
  | none =>
      simp only [Option.getD_none, CodeVF.specBodyStatus]
      cases h : CodeVF.jTruthy (.jInt fallback) <;>
        simp [CodeVF.pyIntOfJVal]
  | some v =>
      simp only [Option.getD_some, CodeVF.specBodyStatus]
      cases h : CodeVF.jTruthy v <;>
        simp [CodeVF.pyIntOfJVal]

/-- C10 counterexample: the claim says that for every non-2xx response
whose body is a mapping with an `error.status` field, the raised
exception carries the body status (coerced) together with the message
and the body.  With a truthy non-string `error.code` (here the integer
5), `(error_code or "").lower()` inside `_resolve_exception_class`
raises `AttributeError` instead, so no such exception is raised at all
for HTTP 400 with body
`{"error": {"code": 5, "status": 500, "message": "m"}}`. -/
theorem C10_counterexample :
    CodeVF.handleResponse 400
      (.jObj [("error",
        .jObj [("code", .jInt 5), ("status", .jInt 500), ("message", .jStr "m")])]) =
      .error .attributeError := by
  rfl

/-- C10 amended: for every non-2xx response whose parsed body is a
mapping with an `error` sub-object, provided the error object's `code`
entry (when present) is a string or falsy, the raised exception's
`status_code` is the body-supplied `error.status` value coerced to int
— overriding the HTTP status — falling back to the HTTP status when
that value is absent, falsy, or not coercible to int; the exception
also carries the extracted message (the error object's `message` entry,
or the generic message naming the HTTP status) and the raw parsed body,
and its class is resolved against the overridden status.  (A truthy
non-string `code` instead crashes with `AttributeError` before any SDK
exception is raised.) -/
theorem C10_theorem (httpStatus : Int) (dfields efields : List (String × JVal))
    (h2xx : ¬(200 ≤ httpStatus ∧ httpStatus < 300))
    (herr : dfields.lookup "error" = some (.jObj efields))
    (hcode : CodeVF.codeLowerable (efields.lookup "code") = true) :
    CodeVF.handleResponse httpStatus (.jObj dfields) =
      .ok (.inr
        { kind := CodeVF.resolveExceptionClass
            (CodeVF.specBodyStatus (efields.lookup "status") httpStatus)
            (CodeVF.specCodeStr (efields.lookup "code"))
          message := CodeVF.specMessage efields httpStatus
          statusCode := CodeVF.specBodyStatus (efields.lookup "status") httpStatus
          body := .jObj dfields }) := by
  unfold CodeVF.handleResponse
  rw [if_neg h2xx]
  simp only [CodeVF.extractErrorPayload, herr]
  rw [bodyStatus_coerce]
  cases hc : efields.lookup "code" with
  | none =>
      simp [CodeVF.resolveExceptionClassJ, CodeVF.specCodeStr, CodeVF.specMessage]
  | some v =>
      rw [hc] at hcode
      cases v <;>
        simp_all [CodeVF.resolveExceptionClassJ, CodeVF.specCodeStr, CodeVF.specMessage,
          CodeVF.codeLowerable]

/-- C10 witness: the amended theorem at HTTP 400 with body
`{"error": {"code": "token_expired", "status": "503", "message": "m"}}`:
the raised exception is resolved against the overridden status 503
(a server error), with message `m` and the body attached. -/
theorem C10_witness :
    CodeVF.handleResponse 400
      (.jObj [("error",
        .jObj [("code", .jStr "token_expired"), ("status", .jStr "503"),
               ("message", .jStr "m")])]) =
      .ok (.inr
        { kind := .server
          message := .jStr "m"
          statusCode := 503
          body := .jObj [("error",
            .jObj [("code", .jStr "token_expired"), ("status", .jStr "503"),
                   ("message", .jStr "m")])] }) := by
  have h := C10_theorem 400
    [("error", .jObj [("code", .jStr "token_expired"), ("status", .jStr "503"),
       ("message", .jStr "m")])]
    [("code", .jStr "token_expired"), ("status", .jStr "503"), ("message", .jStr "m")]
    (by decide) rfl rfl
  exact h

/-! ## Credit-cost calculator (`codevf/models/task.py`)

`calculate_final_credit_cost` computes
`Decimal(max_credits) * mode.sla_multiplier * tag_multiplier` and
quantizes to a whole credit with `ROUND_UP`.  Python `decimal`
arithmetic runs in the default context: 28 significant digits,
`ROUND_HALF_EVEN` on arithmetic, `Emin = -999999`, `Emax = 999999`,
with `InvalidOperation` trapped (raised) when `quantize` would need
more than 28 digits.  The model below embeds the non-negative fragment
(the claim under verification quantifies over non-negative inputs
only): a decimal is `coeff * 10 ^ exp`.  Operations whose exponent
leaves the default `Emin`/`Emax` window (where CPython would signal
`Overflow` or round subnormally) are conservatively mapped to the
`.contextLimit` error — no claim's inputs reach that window, and every
theorem below concludes only from `.ok` results. -/

/-- A non-negative `decimal.Decimal`: coefficient and exponent. -/
structure PyDec where
  coeff : Nat
  exp : Int
  deriving DecidableEq, Repr

namespace CodeVF

/-- The value of a decimal as an exact rational. -/
def decToRat (d : PyDec) : ℚ :=
  (d.coeff : ℚ) * (10 : ℚ) ^ d.exp

/-- Digit-count worker (the first argument is fuel, always sufficient
when called as `numDigitsGo n n`). -/
def numDigitsGo : Nat → Nat → Nat
  | 0, _ => 1
  | fuel + 1, n => if n < 10 then 1 else numDigitsGo fuel (n / 10) + 1

/-- Number of decimal digits of a coefficient (`len(str(n))`, with
`numDigits 0 = 1` as in `Decimal`'s `'0'` coefficient). -/
def numDigits (n : Nat) : Nat :=
  numDigitsGo n n

/-- The context precision of the default decimal context. -/
def PREC : Nat := 28

/-- Round `c / 10 ^ d` to the nearest integer, ties to even
(`ROUND_HALF_EVEN`, the default context rounding). -/
def pyRoundHalfEvenDiv (c d : Nat) : Nat :=
  let p := 10 ^ d
  let q := c / p
  let r := c % p
  if p < 2 * r then q + 1
  else if 2 * r < p then q
  else if q % 2 = 0 then q else q + 1

/-- Decimal-context failures. -/
inductive DecErr where
  | invalidOperation
  | contextLimit
  deriving DecidableEq, Repr

/-- Decimal multiplication under the default context, before the
exponent-window check: exact coefficient product, rounded half-even to
28 significant digits when longer (a carry to 29 digits drops the
trailing zero and bumps the exponent, as `_fix` does). -/
def pyMulRounded (a b : PyDec) : PyDec :=
  if numDigits (a.coeff * b.coeff) ≤ PREC then ⟨a.coeff * b.coeff, a.exp + b.exp⟩
  else
    let d := numDigits (a.coeff * b.coeff) - PREC
    let q := pyRoundHalfEvenDiv (a.coeff * b.coeff) d
    if numDigits q ≤ PREC then ⟨q, a.exp + b.exp + d⟩
    else ⟨q / 10, a.exp + b.exp + d + 1⟩

/-- Decimal multiplication, `pyMulRounded` followed by the default
`Emin`/`Emax` window check. -/
def pyMul (a b : PyDec) : Except DecErr PyDec :=
  if 999999 < (pyMulRounded a b).exp + (numDigits (pyMulRounded a b).coeff : Int) - 1 ∨
     (pyMulRounded a b).exp < -1000026 then .error .contextLimit
  else .ok (pyMulRounded a b)

/-- `Decimal._rescale(0, ROUND_UP)` on a non-negative decimal: bring
the exponent to 0, rounding away from zero (the ceiling). -/
def rescaleUpInt (a : PyDec) : PyDec :=
  if 0 ≤ a.exp then ⟨a.coeff * 10 ^ a.exp.toNat, 0⟩
  else
    ⟨a.coeff / 10 ^ (-a.exp).toNat +
      (if a.coeff % 10 ^ (-a.exp).toNat = 0 then 0 else 1), 0⟩

/-- `raw.quantize(Decimal("1"), rounding=ROUND_UP)` on a non-negative
decimal: `rescaleUpInt`, then `InvalidOperation` if the result needs
more than 28 digits. -/
def pyQuantizeUpInt (a : PyDec) : Except DecErr PyDec :=
  if PREC < numDigits (rescaleUpInt a).coeff then .error .invalidOperation
  else .ok (rescaleUpInt a)

/-- `ServiceMode` from `codevf/models/task.py`. -/
inductive ServiceMode where
  | realtimeAnswer
  | fast
  | standard
  deriving DecidableEq, Repr

/-- `ServiceMode.sla_multiplier`: `Decimal("2")`, `Decimal("1.5")`,
`Decimal("1")`. -/
def slaMultiplier : ServiceMode → PyDec
  | .realtimeAnswer => ⟨2, 0⟩
  | .fast => ⟨15, -1⟩
  | .standard => ⟨1, 0⟩

/-- `calculate_final_credit_cost(max_credits, mode, tag_multiplier)`
(non-negative fragment). -/
def calculateFinalCreditCost (maxCredits : Nat) (mode : ServiceMode) (tagMultiplier : PyDec) :
    Except DecErr PyDec :=
  match pyMul ⟨maxCredits, 0⟩ (slaMultiplier mode) with
  | .error e => .error e
  | .ok m1 =>
      match pyMul m1 tagMultiplier with
      | .error e => .error e
      | .ok m2 => pyQuantizeUpInt m2

/-- The claim's SLA multipliers as exact rationals. -/
def specSlaRat : ServiceMode → ℚ
  | .realtimeAnswer => 2
  | .fast => 3 / 2
  | .standard => 1

/-- The claim's cost formula:
`ceil(maxCredits * tierSlaMultiplier * tagCostMultiplier)`. -/
def specCost (maxCredits : Nat) (mode : ServiceMode) (tag : ℚ) : Int :=
  ⌈(maxCredits : ℚ) * specSlaRat mode * tag⌉

end CodeVF


/-- A product whose coefficient fits in 28 digits is not rounded. -/
theorem pyMulRounded_exact (c1 : Nat) (e1 : Int) (b : PyDec)
    (h : CodeVF.numDigits (c1 * b.coeff) ≤ CodeVF.PREC) :
    CodeVF.pyMulRounded ⟨c1, e1⟩ b = ⟨c1 * b.coeff, e1 + b.exp⟩ := by
  unfold CodeVF.pyMulRounded
  rw [if_pos h]

/-- A product whose coefficient fits in 28 digits is either exact or
rejected by the exponent-window check. -/
theorem pyMul_exact (c1 : Nat) (e1 : Int) (b : PyDec)
    (h : CodeVF.numDigits (c1 * b.coeff) ≤ CodeVF.PREC) :
    CodeVF.pyMul ⟨c1, e1⟩ b = .error .contextLimit ∨
    CodeVF.pyMul ⟨c1, e1⟩ b = .ok ⟨c1 * b.coeff, e1 + b.exp⟩ := by
  unfold CodeVF.pyMul
  rw [pyMulRounded_exact c1 e1 b h]
  by_cases hw : 999999 <
      (e1 + b.exp) + (CodeVF.numDigits (c1 * b.coeff) : Int) - 1 ∨
      e1 + b.exp < -1000026
  · left
    rw [if_pos hw]
  · right
    rw [if_neg hw]

/-- Ceiling of a natural division, in the `div`/`mod` form used by
`rescaleUpInt`. -/
theorem ceil_nat_div (c p : Nat) (hp : 0 < p) :
    (⌈(c : ℚ) / (p : ℚ)⌉ : Int) =
      ((c / p : Nat) : Int) + (if c % p = 0 then 0 else 1) := by
  have hpQ : (0 : ℚ) < (p : ℚ) := by exact_mod_cast hp
  have key : ∀ q r : ℕ, p * q + r = c → r < p →
      (⌈(c : ℚ) / (p : ℚ)⌉ : Int) = (q : Int) + (if r = 0 then 0 else 1) := by
    intro q r he hlt
    subst he
    by_cases h : r = 0
    · subst h
      rw [if_pos rfl, add_zero, add_zero]
      have hv : ((p * q : ℕ) : ℚ) / (p : ℚ) = (q : ℚ) := by
        push_cast
        field_simp
      rw [hv, Int.ceil_natCast]
    · rw [if_neg h, Int.ceil_eq_iff]
      have h0 : (0 : ℚ) < (r : ℚ) := by
        exact_mod_cast Nat.pos_of_ne_zero h
      have hltQ : (r : ℚ) < (p : ℚ) := by exact_mod_cast hlt
      constructor
      · push_cast
        rw [lt_div_iff₀ hpQ]
        nlinarith
      · push_cast
        rw [div_le_iff₀ hpQ]
        nlinarith
  have hfin := key (c / p) (c % p) (Nat.div_add_mod c p) (Nat.mod_lt c hp)
  exact hfin

/-- A successful quantize yields exactly the ceiling of the input
value. -/
theorem pyQuantizeUpInt_ok (a r : PyDec)
    (h : CodeVF.pyQuantizeUpInt a = .ok r) :
    CodeVF.decToRat r = (⌈CodeVF.decToRat a⌉ : ℚ) := by
  unfold CodeVF.pyQuantizeUpInt at h
  split at h
  · exact absurd h (by simp)
  · have hra : r = CodeVF.rescaleUpInt a := by
      cases h
      rfl
    subst hra
    unfold CodeVF.rescaleUpInt CodeVF.decToRat
    by_cases he : 0 ≤ a.exp
    · rw [if_pos he]
      have hexp : a.exp = (a.exp.toNat : Int) := (Int.toNat_of_nonneg he).symm
      rw [zpow_zero, mul_one]
      conv_rhs => rw [hexp]
      rw [zpow_natCast]
      have hv : (a.coeff : ℚ) * (10 : ℚ) ^ a.exp.toNat =
          ((a.coeff * 10 ^ a.exp.toNat : ℕ) : ℚ) := by
        push_cast
        ring
      rw [hv, Int.ceil_natCast]
      simp
    · rw [if_neg he]
      have hd : a.exp = -(((-a.exp).toNat : ℕ) : Int) := by omega
      have hppos : 0 < 10 ^ (-a.exp).toNat := Nat.pos_pow_of_pos _ (by norm_num)
      have hval : (a.coeff : ℚ) * (10 : ℚ) ^ a.exp =
          (a.coeff : ℚ) / ((10 ^ (-a.exp).toNat : ℕ) : ℚ) := by
        conv_lhs => rw [hd]
        rw [zpow_neg, zpow_natCast, div_eq_mul_inv]
        push_cast
        ring
      rw [zpow_zero, mul_one, hval, ceil_nat_div _ _ hppos]
      dsimp only
      by_cases hmod : a.coeff % 10 ^ (-a.exp).toNat = 0
      · rw [if_pos hmod, if_pos hmod]
        exact_mod_cast rfl
      · rw [if_neg hmod, if_neg hmod]
        exact_mod_cast rfl

/-- C7 counterexample: the claim asserts the result is always the exact
ceiling, "computed in exact decimal arithmetic and never rounded down".
The default decimal context has 28 significant digits: with
`max_credits = 1`, Standard tier, and tag multiplier
`Decimal("1.0000000000000000000000000001")` (coefficient `10^28 + 1`,
29 significant digits), the product is rounded half-even down to `1`
and `calculate_final_credit_cost` returns 1, although the exact ceiling
is 2 — the service is underpaid (checked against CPython 3.11
`decimal`). -/
theorem C7_counterexample :
    CodeVF.calculateFinalCreditCost 1 .standard ⟨10 ^ 28 + 1, -28⟩ = .ok ⟨1, 0⟩ ∧
    CodeVF.specCost 1 .standard (CodeVF.decToRat ⟨10 ^ 28 + 1, -28⟩) = 2 ∧
    CodeVF.decToRat ⟨1, 0⟩ ≠ (2 : ℚ) := by
  refine ⟨rfl, ?_, ?_⟩
  · have hval : ((1 : ℕ) : ℚ) * CodeVF.specSlaRat .standard *
        CodeVF.decToRat ⟨10 ^ 28 + 1, -28⟩ =
        ((10 ^ 28 + 1 : ℕ) : ℚ) / ((10 ^ 28 : ℕ) : ℚ) := by
      unfold CodeVF.specSlaRat CodeVF.decToRat
      rw [show (-28 : ℤ) = -((28 : ℕ) : ℤ) from by norm_num, zpow_neg, zpow_natCast]
      push_cast
      ring
    unfold CodeVF.specCost
    rw [hval, ceil_nat_div _ _ (by norm_num)]
    decide
  · unfold CodeVF.decToRat
    norm_num

/-- C7 amended: for every `max_credits ≥ 0`, tier, and tag multiplier
`≥ 0` whose intermediate decimal coefficient products fit in the
default context's 28 significant digits, every successful
`calculate_final_credit_cost` result is exactly the ceiling of
`max_credits × tierSlaMultiplier (RealtimeAnswer 2, Fast 1.5,
Standard 1) × tagMultiplier`; outside that window the context's
half-even rounding can round the product down (see the counterexample)
or `quantize` can fail with `InvalidOperation`.  In particular
`calculate_final_credit_cost(100, Fast, 1.5) = 225`. -/
theorem C7_theorem (maxCredits : Nat) (mode : CodeVF.ServiceMode) (tag : PyDec)
    (h1 : CodeVF.numDigits (maxCredits * (CodeVF.slaMultiplier mode).coeff) ≤ CodeVF.PREC)
    (h2 : CodeVF.numDigits (maxCredits * (CodeVF.slaMultiplier mode).coeff * tag.coeff) ≤
      CodeVF.PREC)
    (r : PyDec)
    (hr : CodeVF.calculateFinalCreditCost maxCredits mode tag = .ok r) :
    CodeVF.decToRat r = (CodeVF.specCost maxCredits mode (CodeVF.decToRat tag) : ℚ) := by
  unfold CodeVF.calculateFinalCreditCost at hr
  split at hr
  · exact absurd hr (by simp)
  · rename_i m1 heq1
    split at hr
    · exact absurd hr (by simp)
    · rename_i m2 heq2
      rcases pyMul_exact maxCredits 0 (CodeVF.slaMultiplier mode) h1 with hx | hx <;>
        rw [hx] at heq1
      · exact absurd heq1 (by simp)
      · have hm1 : m1 = ⟨maxCredits * (CodeVF.slaMultiplier mode).coeff,
            0 + (CodeVF.slaMultiplier mode).exp⟩ := by
          injection heq1 with h'
          exact h'.symm
        subst hm1
        rcases pyMul_exact (maxCredits * (CodeVF.slaMultiplier mode).coeff)
            ((0 : Int) + (CodeVF.slaMultiplier mode).exp) tag h2 with hy | hy <;>
          rw [hy] at heq2
        · exact absurd heq2 (by simp)
        · have hm2 : m2 = ⟨maxCredits * (CodeVF.slaMultiplier mode).coeff * tag.coeff,
              0 + (CodeVF.slaMultiplier mode).exp + tag.exp⟩ := by
            injection heq2 with h'
            exact h'.symm
          subst hm2
          rw [pyQuantizeUpInt_ok _ _ hr]
          unfold CodeVF.specCost
          congr 1
          cases mode
          case realtimeAnswer =>
            simp only [CodeVF.slaMultiplier, CodeVF.specSlaRat]
            unfold CodeVF.decToRat
            push_cast
            congr 1
            ring_nf
          case fast =>
            simp only [CodeVF.slaMultiplier, CodeVF.specSlaRat]
            unfold CodeVF.decToRat
            push_cast
            congr 1
            rw [zpow_add₀ (show (10 : ℚ) ≠ 0 from by norm_num), zpow_neg, zpow_one]
            field_simp
            ring
          case standard =>
            simp only [CodeVF.slaMultiplier, CodeVF.specSlaRat]
            unfold CodeVF.decToRat
            push_cast
            congr 1
            ring_nf

/-- C7 witness: the amended theorem at `max_credits = 100`, Fast tier,
tag multiplier `Decimal("1.5")`: the result decimal 225 equals the
ceiling of `100 × 1.5 × 1.5`. -/
theorem C7_witness :
    CodeVF.decToRat ⟨225, 0⟩ =
      (CodeVF.specCost 100 .fast (CodeVF.decToRat ⟨15, -1⟩) : ℚ) :=
  C7_theorem 100 .fast ⟨15, -1⟩ (by decide) (by decide) ⟨225, 0⟩ (by rfl)

/-! ## Task creation (`codevf/resources/tasks.py`, `Tasks.create`)

The embedding covers the local validation and payload assembly of
`Tasks.create` up to the transport call: `.ok payload` means
`self._client.post("tasks/create", data=payload)` is invoked with that
payload, `.error` means a `ValueError` is raised before any network
call.  Attachment dictionary values and the metadata object are opaque
(`Tasks.create` never inspects them), hence the type parameters. -/

namespace CodeVF

/-- The local exception of `Tasks.create`: a Python `ValueError` with
its message. -/
inductive CreateErr where
  | valueError (msg : String)
  deriving DecidableEq, Repr

/-- Key membership in a Python dict modelled as an association list
(`"k" in d`). -/
def dictContains {α : Type} (d : List (String × α)) (k : String) : Bool :=
  (List.lookup k d).isSome

/-- `d.pop(k)`'s effect on the dict: remove the entry (keys are
unique). -/
def dictPop {α : Type} (d : List (String × α)) (k : String) : List (String × α) :=
  d.filter (fun kv => kv.1 != k)

/-- The `base64`/`content` alias resolution of `Tasks.create`
(`new_att = att.copy()` followed by the `base64` handling):
`new_att["content"] = new_att.pop("base64")` removes `base64` and
appends `content`; when both are present, `base64` is dropped and
`content` is preferred. -/
def resolveBase64Alias {α : Type} (d : List (String × α)) : List (String × α) :=
  if dictContains d "base64" then
    if !dictContains d "content" then
      match List.lookup "base64" d with
      | some v => dictPop d "base64" ++ [("content", v)]
      | none => d
    else dictPop d "base64"
  else d

/-- One iteration of the attachment-normalization loop of
`Tasks.create` at index `i`: a non-dict (`none`) or a dict missing
`fileName`/`mimeType` or `content`/`base64` raises; otherwise the
`base64` alias is resolved into `content`. -/
def normalizeAttachment {α : Type} (i : Nat) (att : Option (List (String × α))) :
    Except CreateErr (List (String × α)) :=
  match att with
  | none =>
      .error (.valueError ("Attachment at index " ++ toString i ++ " must be a dictionary."))
  | some d =>
      if !dictContains d "fileName" || !dictContains d "mimeType" then
        .error (.valueError ("Attachment at index " ++ toString i ++
          " missing required fields \x27fileName\x27 or \x27mimeType\x27."))
      else if !dictContains (resolveBase64Alias d) "content" then
        .error (.valueError ("Attachment at index " ++ toString i ++
          " must provide \x27content\x27 (or \x27base64\x27)."))
      else .ok (resolveBase64Alias d)

/-- The attachment loop (`for i, att in enumerate(attachments)`),
stopping at the first failure. -/
def normalizeAttachments {α : Type} (i : Nat) :
    List (Option (List (String × α))) → Except CreateErr (List (List (String × α)))
  | [] => .ok []
  | a :: rest =>
      match normalizeAttachment i a with
      | .error e => .error e
      | .ok d => (normalizeAttachments (i + 1) rest).map (fun ds => d :: ds)

/-- The payload handed to `client.post("tasks/create", data=...)`.
Optional fields are omitted from the wire dict when `none`;
`attachments = []` means the key is omitted (`if normalized_attachments:`). -/
structure CreatePayload (α β : Type) where
  prompt : String
  maxCredits : Int
  projectId : Int
  mode : String
  metadata : Option β
  idempotencyKey : Option String
  attachments : List (List (String × α))
  deriving DecidableEq

/-- `valid_modes` (a Python set; modelled as a list, membership only). -/
def validModes : List String := ["realtime_answer", "fast", "standard"]

/-- The message of the invalid-mode `ValueError`.  The Python f-string
renders the set `valid_modes`, whose iteration order is
hash-randomized; the embedding fixes one rendering (no theorem depends
on this message). -/
def modeErrorMessage (mode : String) : String :=
  "Invalid mode \x27" ++ mode ++
    "\x27. Must be one of \x7b\x27realtime_answer\x27, \x27fast\x27, \x27standard\x27\x7d."

/-- The `if attachments:` block of `Tasks.create`: `None` and the
empty list are falsy and skip validation entirely; otherwise the count
is checked (before any per-item check) and each item is normalized. -/
def validateAttachmentsArg {α : Type}
    (attachments : Option (List (Option (List (String × α))))) :
    Except CreateErr (List (List (String × α))) :=
  match attachments with
  | none => .ok []
  | some [] => .ok []
  | some atts =>
      if atts.length > 5 then .error (.valueError "Maximum of 5 attachments allowed.")
      else normalizeAttachments 0 atts

/-- `Tasks.create(prompt, max_credits, project_id, mode, metadata,
idempotency_key, attachments)` up to the transport call. -/
def createTask {α β : Type} (prompt : String) (maxCredits : Int) (projectId : Int)
    (mode : String) (metadata : Option β) (idempotencyKey : Option String)
    (attachments : Option (List (Option (List (String × α))))) :
    Except CreateErr (CreatePayload α β) :=
  if ¬(10 ≤ prompt.length ∧ prompt.length ≤ 10000) then
    .error (.valueError "Prompt must be between 10 and 10,000 characters.")
  else if ¬(1 ≤ maxCredits ∧ maxCredits ≤ 1920) then
    .error (.valueError "max_credits must be between 1 and 1920.")
  else if !validModes.contains mode then
    .error (.valueError (modeErrorMessage mode))
  else
    match validateAttachmentsArg attachments with
    | .error e => .error e
    | .ok natts =>
        .ok { prompt := prompt, maxCredits := maxCredits, projectId := projectId,
              mode := mode, metadata := metadata, idempotencyKey := idempotencyKey,
              attachments := natts }

/-- The shape check `Tasks.create` actually performs on one attachment:
it is a dict providing `fileName`, `mimeType` and `content` (or the
`base64` alias). -/
def attItemOk {α : Type} (att : Option (List (String × α))) : Bool :=
  match att with
  | none => false
  | some d =>
      dictContains d "fileName" && dictContains d "mimeType" &&
        (dictContains d "content" || dictContains d "base64")

end CodeVF

/-- Removing one key from a dict leaves lookups of other keys
unchanged. -/
theorem lookup_dictPop_ne {α : Type} (d : List (String × α)) (k k' : String)
    (hne : k ≠ k') :
    List.lookup k (CodeVF.dictPop d k') = List.lookup k d := by
  induction d with
  | nil => rfl
  | cons kv rest ih =>
      rcases kv with ⟨a, b⟩
      unfold CodeVF.dictPop at ih ⊢
      rw [List.filter_cons]
      by_cases ha : a = k'
      · subst ha
        have h1 : (a != a) = false := by simp
        have h2 : (k == a) = false := by
          simp only [beq_eq_false_iff_ne, ne_eq]
          exact hne
        simp only [h1, Bool.false_eq_true, if_false, List.lookup_cons, h2, ih]
      · have h1 : (a != k') = true := by
          simp only [bne_iff_ne, ne_eq]
          exact ha
        simp only [h1, if_true, List.lookup_cons, ih]

/-- Key membership distributes over dict concatenation. -/
theorem lookup_isSome_append {α : Type} (l₁ l₂ : List (String × α)) (k : String) :
    (List.lookup k (l₁ ++ l₂)).isSome =
      ((List.lookup k l₁).isSome || (List.lookup k l₂).isSome) := by
  induction l₁ with
  | nil => simp
  | cons kv rest ih =>
      rcases kv with ⟨a, b⟩
      rw [List.cons_append, List.lookup_cons, List.lookup_cons]
      cases hka : (k == a) <;> simp [ih]

/-- Alias resolution leaves a `content` key exactly when `content` or
`base64` was present. -/
theorem contains_resolveBase64Alias {α : Type} (d : List (String × α)) :
    CodeVF.dictContains (CodeVF.resolveBase64Alias d) "content" =
      (CodeVF.dictContains d "content" || CodeVF.dictContains d "base64") := by
  unfold CodeVF.resolveBase64Alias
  by_cases hb : CodeVF.dictContains d "base64"
  · rw [if_pos hb]
    by_cases hc : CodeVF.dictContains d "content"
    · rw [if_neg (by simp [hc])]
      unfold CodeVF.dictContains at hc ⊢
      rw [lookup_dictPop_ne d "content" "base64" (by decide)]
      simp [hc]
    · rw [if_pos (by simp [hc])]
      cases hx : List.lookup "base64" d with
      | none =>
          exfalso
          unfold CodeVF.dictContains at hb
          rw [hx] at hb
          simp at hb
      | some v =>
          have hl : CodeVF.dictContains
              (CodeVF.dictPop d "base64" ++ [("content", v)]) "content" = true := by
            unfold CodeVF.dictContains
            rw [lookup_isSome_append]
            have h2 : (List.lookup "content" ([("content", v)] : List (String × α))).isSome =
                true := rfl
            rw [h2, Bool.or_true]
          rw [hl, hb, Bool.or_true]
  · rw [if_neg hb]
    have hb' : CodeVF.dictContains d "base64" = false := by
      simpa using hb
    rw [hb', Bool.or_false]

/-- One attachment normalizes successfully exactly when it has the
shape `Tasks.create` requires (`attItemOk`). -/
theorem normalizeAttachment_ok_iff {α : Type} (i : Nat)
    (att : Option (List (String × α))) :
    (∃ d', CodeVF.normalizeAttachment i att = .ok d') ↔
      CodeVF.attItemOk att = true := by
  cases att with
  | none => simp [CodeVF.normalizeAttachment, CodeVF.attItemOk]
  | some d =>
      simp only [CodeVF.normalizeAttachment, CodeVF.attItemOk]
      by_cases hfm : (!CodeVF.dictContains d "fileName" ||
          !CodeVF.dictContains d "mimeType") = true
      · rw [if_pos hfm]
        constructor
        · rintro ⟨d', hd'⟩
          exact absurd hd' (by simp)
        · intro hok
          rcases Bool.and_eq_true_iff.mp hok with ⟨hok1, _⟩
          rcases Bool.and_eq_true_iff.mp hok1 with ⟨h1, h2⟩
          simp [h1, h2] at hfm
      · rw [if_neg hfm]
        have hf2 : CodeVF.dictContains d "fileName" = true ∧
            CodeVF.dictContains d "mimeType" = true := by
          constructor <;> (by_contra hx; apply hfm; simp [Bool.eq_false_iff.mpr hx])
        rw [contains_resolveBase64Alias]
        cases hcb : (CodeVF.dictContains d "content" || CodeVF.dictContains d "base64") with
        | false =>
            rw [if_pos (by simp [hcb])]
            constructor
            · rintro ⟨d', hd'⟩
              exact absurd hd' (by simp)
            · intro hok
              rw [hf2.1, hf2.2] at hok
              simp at hok
        | true =>
            rw [if_neg (by simp [hcb])]
            constructor
            · intro _
              rw [hf2.1, hf2.2]
              rfl
            · intro _
              exact ⟨_, rfl⟩

/-- The attachment loop succeeds exactly when every item has the
required shape (at any starting index). -/
theorem normalizeAttachments_ok_iff {α : Type}
    (atts : List (Option (List (String × α)))) :
    ∀ i, (∃ ds, CodeVF.normalizeAttachments i atts = .ok ds) ↔
      atts.all CodeVF.attItemOk = true := by
  induction atts with
  | nil =>
      intro i
      simp [CodeVF.normalizeAttachments]
  | cons a rest ih =>
      intro i
      unfold CodeVF.normalizeAttachments
      constructor
      · rintro ⟨ds, hds⟩
        cases hna : CodeVF.normalizeAttachment i a with
        | error e =>
            rw [hna] at hds
            exact absurd hds (by simp)
        | ok d =>
            rw [hna] at hds
            cases hrest : CodeVF.normalizeAttachments (i + 1) rest with
            | error e =>
                rw [hrest] at hds
                exact absurd hds (by simp [Except.map])
            | ok ds' =>
                have h1 : CodeVF.attItemOk a = true :=
                  (normalizeAttachment_ok_iff i a).mp ⟨d, hna⟩
                have h2 : rest.all CodeVF.attItemOk = true :=
                  (ih (i + 1)).mp ⟨ds', hrest⟩
                simp [h1, h2]
      · intro hall
        rw [List.all_cons] at hall
        rcases Bool.and_eq_true_iff.mp hall with ⟨h1, h2⟩
        rcases (normalizeAttachment_ok_iff i a).mpr h1 with ⟨d, hd⟩
        rcases (ih (i + 1)).mpr h2 with ⟨ds, hds⟩
        refine ⟨d :: ds, ?_⟩
        rw [hd, hds]
        rfl

/-- Under valid prompt, credits and mode, `Tasks.create` is the
attachment-argument validation followed by payload assembly. -/
theorem createTask_valid {α β : Type} (prompt mode : String) (maxCredits projectId : Int)
    (metadata : Option β) (idempotencyKey : Option String)
    (attachments : Option (List (Option (List (String × α)))))
    (hp : 10 ≤ prompt.length ∧ prompt.length ≤ 10000)
    (hcr : 1 ≤ maxCredits ∧ maxCredits ≤ 1920)
    (hm : CodeVF.validModes.contains mode = true) :
    CodeVF.createTask prompt maxCredits projectId mode metadata idempotencyKey attachments =
      (CodeVF.validateAttachmentsArg attachments).map
        (fun natts =>
          { prompt := prompt, maxCredits := maxCredits, projectId := projectId,
            mode := mode, metadata := metadata, idempotencyKey := idempotencyKey,
            attachments := natts }) := by
  unfold CodeVF.createTask
  rw [if_neg (not_not_intro hp), if_neg (not_not_intro hcr),
    if_neg (by simpa using hm)]
  cases CodeVF.validateAttachmentsArg attachments <;> rfl

/-- A non-empty attachment list validates successfully exactly when it
has at most 5 items, all of the required shape. -/
theorem validateAttachmentsArg_some_ok_iff {α : Type}
    (atts : List (Option (List (String × α)))) :
    (∃ ds, CodeVF.validateAttachmentsArg (some atts) = .ok ds) ↔
      (atts = [] ∨ (atts.length ≤ 5 ∧ atts.all CodeVF.attItemOk = true)) := by
  cases atts with
  | nil => simp [CodeVF.validateAttachmentsArg]
  | cons a rest =>
      simp only [CodeVF.validateAttachmentsArg]
      by_cases hlen : (a :: rest).length > 5
      · rw [if_pos hlen]
        constructor
        · rintro ⟨ds, hds⟩
          exact absurd hds (by simp)
        · rintro (habs | ⟨hle, _⟩)
          · exact absurd habs (by simp)
          · omega
      · rw [if_neg hlen]
        rw [normalizeAttachments_ok_iff (a :: rest) 0]
        constructor
        · intro hall
          right
          exact ⟨by omega, hall⟩
        · rintro (habs | ⟨_, hall⟩)
          · exact absurd habs (by simp)
          · exact hall

/-- More than five attachments fail the count check (before any
per-item validation). -/
theorem validateAttachmentsArg_too_many {α : Type}
    (atts : List (Option (List (String × α)))) (h : 5 < atts.length) :
    CodeVF.validateAttachmentsArg (some atts) =
      .error (.valueError "Maximum of 5 attachments allowed.") := by
  cases atts with
  | nil => simp at h
  | cons a rest =>
      simp only [CodeVF.validateAttachmentsArg]
      rw [if_pos h]

/-- C1 counterexample: the claim says Standard with 239 credits and
RealtimeAnswer with 601 credits fail validation.  In the code,
`Tasks.create` checks only the single global bound `1 ≤ max_credits ≤
1920` (no tier-specific sub-range), so both calls pass local validation
and the payload is handed to the transport. -/
theorem C1_counterexample :
    CodeVF.createTask (α := Unit) (β := Unit) "Summarize the repository" 239 1 "standard"
        none none none =
      .ok { prompt := "Summarize the repository", maxCredits := 239, projectId := 1,
            mode := "standard", metadata := none, idempotencyKey := none,
            attachments := [] } ∧
    CodeVF.createTask (α := Unit) (β := Unit) "Summarize the repository" 601 1
        "realtime_answer" none none none =
      .ok { prompt := "Summarize the repository", maxCredits := 601, projectId := 1,
            mode := "realtime_answer", metadata := none, idempotencyKey := none,
            attachments := [] } :=
  ⟨rfl, rfl⟩

/-- C1 amended: for every call to `Tasks.create` (valid prompt and
mode), validation of `max_credits` succeeds iff `1 ≤ max_credits ≤
1920`, independent of the tier; a violation raises a local `ValueError`
naming that range ("max_credits must be between 1 and 1920.") before
any network call.  In particular RealtimeAnswer with 60 credits passes
and Standard with 240 passes. -/
theorem C1_theorem (prompt mode : String) (maxCredits projectId : Int)
    (hp1 : 10 ≤ prompt.length) (hp2 : prompt.length ≤ 10000)
    (hm : CodeVF.validModes.contains mode = true) :
    ((∃ p, CodeVF.createTask (α := Unit) (β := Unit) prompt maxCredits projectId mode
        none none none = .ok p) ↔ 1 ≤ maxCredits ∧ maxCredits ≤ 1920) ∧
    (¬(1 ≤ maxCredits ∧ maxCredits ≤ 1920) →
      CodeVF.createTask (α := Unit) (β := Unit) prompt maxCredits projectId mode
        none none none =
        .error (.valueError "max_credits must be between 1 and 1920.")) := by
  have herr : ¬(1 ≤ maxCredits ∧ maxCredits ≤ 1920) →
      CodeVF.createTask (α := Unit) (β := Unit) prompt maxCredits projectId mode
        none none none =
        .error (.valueError "max_credits must be between 1 and 1920.") := by
    intro hcr
    unfold CodeVF.createTask
    rw [if_neg (not_not_intro ⟨hp1, hp2⟩), if_pos hcr]
  refine ⟨⟨?_, ?_⟩, herr⟩
  · rintro ⟨p, hp⟩
    by_contra hcr
    rw [herr hcr] at hp
    exact absurd hp (by simp)
  · intro hcr
    refine
      ⟨{ prompt := prompt, maxCredits := maxCredits, projectId := projectId,
         mode := mode, metadata := none, idempotencyKey := none,
         attachments := [] }, ?_⟩
    rw [createTask_valid prompt mode maxCredits projectId none none none
      ⟨hp1, hp2⟩ hcr hm]
    rfl

/-- C1 witness: the amended theorem at 1921 credits (above the global
bound): the local `ValueError` names the range. -/
theorem C1_witness :
    CodeVF.createTask (α := Unit) (β := Unit) "Summarize the repository" 1921 1 "standard"
        none none none =
      .error (.valueError "max_credits must be between 1 and 1920.") :=
  ( C1_theorem "Summarize the repository" "standard" 1921 1 (by decide) (by decide) rfl).2
    (by omega)

/-- C5 counterexample: the claim says a malformed idempotency key
raises a local validation error.  `Tasks.create` performs no validation
of the key: the non-UUID string `"uuid"` passes and is sent verbatim as
`idempotencyKey` (exactly what the repository's own
`tests/test_tasks_manual.py::test_payload_construction` expects). -/
theorem C5_counterexample :
    CodeVF.createTask (α := Unit) (β := Unit) "Summarize the repository" 100 1 "standard"
        none (some "uuid") none =
      .ok { prompt := "Summarize the repository", maxCredits := 100, projectId := 1,
            mode := "standard", metadata := none, idempotencyKey := some "uuid",
            attachments := [] } :=
  rfl

/-- C5 amended: for every call to `Tasks.create` supplying an
idempotency key (valid prompt, credits and mode), the key is not
validated at all: any string passes and is sent verbatim as
`idempotencyKey` in the payload. -/
theorem C5_theorem (prompt mode key : String) (maxCredits projectId : Int)
    (hp1 : 10 ≤ prompt.length) (hp2 : prompt.length ≤ 10000)
    (hm : CodeVF.validModes.contains mode = true)
    (hcr : 1 ≤ maxCredits ∧ maxCredits ≤ 1920) :
    CodeVF.createTask (α := Unit) (β := Unit) prompt maxCredits projectId mode
        none (some key) none =
      .ok { prompt := prompt, maxCredits := maxCredits, projectId := projectId,
            mode := mode, metadata := none, idempotencyKey := some key,
            attachments := [] } := by
  rw [createTask_valid prompt mode maxCredits projectId none (some key) none
    ⟨hp1, hp2⟩ hcr hm]
  rfl

/-- C5 witness: the amended theorem at the concrete non-UUID key
`"not-a-uuid"`. -/
theorem C5_witness :
    CodeVF.createTask (α := Unit) (β := Unit) "Summarize the repository" 100 1 "standard"
        none (some "not-a-uuid") none =
      .ok { prompt := "Summarize the repository", maxCredits := 100, projectId := 1,
            mode := "standard", metadata := none, idempotencyKey := some "not-a-uuid",
            attachments := [] } :=
  C5_theorem "Summarize the repository" "standard" "not-a-uuid" 100 1
    (by decide) (by decide) rfl (by decide)

/-- C4 counterexample: the claim says more than 5 attachments raise
`AttachmentLimitExceeded` and that each attachment is run through the
§4.1 classifier/validator.  In the code, the count check raises a plain
`ValueError`, and §4.1 is never invoked by `Tasks.create`: an
attachment whose type the §4.1 classifier rejects
(`virus.exe`/`application/octet-stream`) passes create's local
validation and reaches the transport. -/
theorem C4_counterexample :
    CodeVF.createTask (β := Unit) "Summarize the repository" 100 1 "standard" none none
        (some (List.replicate 6 (some [("fileName", "f.txt"), ("mimeType", "text/plain"),
          ("content", "c")]))) =
      .error (.valueError "Maximum of 5 attachments allowed.") ∧
    CodeVF.createTask (β := Unit) "Summarize the repository" 100 1 "standard" none none
        (some [some [("fileName", "virus.exe"), ("mimeType", "application/octet-stream"),
          ("content", "x")]]) =
      .ok { prompt := "Summarize the repository", maxCredits := 100, projectId := 1,
            mode := "standard", metadata := none, idempotencyKey := none,
            attachments := [[("fileName", "virus.exe"),
              ("mimeType", "application/octet-stream"), ("content", "x")]] } ∧
    CodeVF.selectCategory "virus.exe" "application/octet-stream" =
      .error (.attachmentTooLarge
        "Unsupported attachment type: \x27virus.exe\x27 (application/octet-stream).") :=
  ⟨rfl, rfl, rfl⟩

/-- C4 amended: for every call to `Tasks.create` supplying attachments
(valid prompt, credits and mode): a list of more than 5 attachments
raises the local `ValueError` "Maximum of 5 attachments allowed."
regardless of the individual attachments' validity (the count is
checked first); each attachment is checked only for being a mapping
providing `fileName`, `mimeType` and `content` (or its `base64` alias,
normalized into `content`) — the §4.1 category/size/base64 validation
is not invoked, so a §4.1-invalid attachment reaches the transport;
local failures still occur before the transport is invoked. -/
theorem C4_theorem (prompt mode : String) (maxCredits projectId : Int)
    (atts : List (Option (List (String × String))))
    (hp1 : 10 ≤ prompt.length) (hp2 : prompt.length ≤ 10000)
    (hm : CodeVF.validModes.contains mode = true)
    (hcr : 1 ≤ maxCredits ∧ maxCredits ≤ 1920) :
    ((∃ p, CodeVF.createTask (β := Unit) prompt maxCredits projectId mode none none
        (some atts) = .ok p) ↔
      (atts = [] ∨ (atts.length ≤ 5 ∧ atts.all CodeVF.attItemOk = true))) ∧
    (5 < atts.length →
      CodeVF.createTask (β := Unit) prompt maxCredits projectId mode none none
        (some atts) = .error (.valueError "Maximum of 5 attachments allowed.")) := by
  constructor
  · rw [createTask_valid prompt mode maxCredits projectId none none (some atts)
      ⟨hp1, hp2⟩ hcr hm]
    rw [← validateAttachmentsArg_some_ok_iff atts]
    cases CodeVF.validateAttachmentsArg (some atts) with
    | error e => simp [Except.map]
    | ok ds => simp [Except.map]
  · intro hlen
    rw [createTask_valid prompt mode maxCredits projectId none none (some atts)
      ⟨hp1, hp2⟩ hcr hm, validateAttachmentsArg_too_many atts hlen]
    rfl

/-- C4 witness: the amended theorem at six shape-valid attachments: the
count check fires with the local `ValueError`. -/
theorem C4_witness :
    CodeVF.createTask (β := Unit) "Summarize the repository" 100 1 "standard" none none
        (some (List.replicate 6 (some [("fileName", "g.txt"), ("mimeType", "text/plain"),
          ("content", "g")]))) =
      .error (.valueError "Maximum of 5 attachments allowed.") :=
  ( C4_theorem "Summarize the repository" "standard" 100 1
    (List.replicate 6 (some [("fileName", "g.txt"), ("mimeType", "text/plain"),
      ("content", "g")])) (by decide) (by decide) rfl (by decide)).2 (by decide)

/-! ## Task response decoding (`codevf/models/task.py`, `TaskResponse.from_payload`) -/

namespace CodeVF

/-- Python `str(x)` on a parsed JSON value.  Scalar renderings are
exact (`str` of a string is itself, ints render in decimal, booleans as
`True`/`False`, `None` as `"None"`); float rendering and the `repr`
of lists/dicts are approximated (no claim depends on them, and the
payload fields the theorems evaluate are strings). -/
def pyStrOf : JVal → String
  | .jStr s => s
  | .jInt n => toString n
  | .jBool b => if b then "True" else "False"
  | .jNull => "None"
  | .jFloat q => toString q
  | .jArr _ => "<list>"
  | .jObj _ => "<dict>"

/-- Exceptions escaping `TaskResponse.from_payload`: `KeyError` from a
missing required field, `ValueError` from `ServiceMode.validate`, and
the `TypeError`/`ValueError` family from `int(...)` or from indexing a
non-dict deliverable (collapsed into one constructor). -/
inductive TaskDecodeErr where
  | keyError (key : String)
  | valueError (msg : String)
  | typeError
  deriving DecidableEq, Repr

/-- `ServiceMode.validate(value)` (`ServiceMode(value)` with the
wrapped `ValueError`). -/
def serviceModeValidate (value : String) : Except TaskDecodeErr ServiceMode :=
  if value = "realtime_answer" then .ok .realtimeAnswer
  else if value = "fast" then .ok .fast
  else if value = "standard" then .ok .standard
  else .error (.valueError ("\x27" ++ value ++ "\x27 is not a supported ServiceMode."))

/-- The dataclass `TaskDeliverable` (string fields already passed
through `str(...)`; `mime_type` is the raw optional value). -/
structure TaskDeliverable where
  fileName : String
  url : String
  uploadedAt : String
  mimeType : JVal

/-- `payload[key]` on a dict: `KeyError` when absent. -/
def requiredField (p : List (String × JVal)) (key : String) : Except TaskDecodeErr JVal :=
  match List.lookup key p with
  | some v => .ok v
  | none => .error (.keyError key)

/-- `TaskDeliverable.from_payload(payload)`. -/
def taskDeliverableFromPayload (p : List (String × JVal)) :
    Except TaskDecodeErr TaskDeliverable :=
  match requiredField p "fileName" with
  | .error e => .error e
  | .ok fv =>
      match requiredField p "url" with
      | .error e => .error e
      | .ok uv =>
          match requiredField p "uploadedAt" with
          | .error e => .error e
          | .ok tv =>
              .ok { fileName := pyStrOf fv, url := pyStrOf uv, uploadedAt := pyStrOf tv,
                    mimeType := (List.lookup "mimeType" p).getD .jNull }

/-- `TaskDeliverable.from_payload(item)` on an arbitrary list element:
indexing a non-dict raises (`TypeError`). -/
def taskDeliverableFromItem : JVal → Except TaskDecodeErr TaskDeliverable
  | .jObj f => taskDeliverableFromPayload f
  | _ => .error .typeError

/-- The `[TaskDeliverable.from_payload(item) for item in items]`
comprehension. -/
def deliverablesFromList : List JVal → Except TaskDecodeErr (List TaskDeliverable)
  | [] => .ok []
  | v :: rest =>
      match taskDeliverableFromItem v with
      | .error e => .error e
      | .ok d => (deliverablesFromList rest).map (fun ds => d :: ds)

/-- The dataclass `TaskResult`. -/
structure TaskResult where
  message : JVal
  deliverables : List TaskDeliverable

/-- `TaskResult.from_payload(payload)`: `deliverables` defaults to `[]`
and a non-list value is replaced by `[]`; `message` is
`payload.get("message")`. -/
def taskResultFromPayload (p : List (String × JVal)) : Except TaskDecodeErr TaskResult :=
  let items : List JVal :=
    match List.lookup "deliverables" p with
    | some (.jArr xs) => xs
    | some _ => []
    | none => []
  match deliverablesFromList items with
  | .error e => .error e
  | .ok ds => .ok { message := (List.lookup "message" p).getD .jNull, deliverables := ds }

/-- The dataclass `TaskResponse` of `codevf/models/task.py`.  Its
fields are exactly `id`, `status`, `mode`, `max_credits`, `created_at`,
`credits_used`, `result` — there is no `response_schema` field, and
`result` is either a typed `TaskResult` or `None`, never a raw
mapping. -/
structure TaskResponse where
  id : String
  status : String
  mode : ServiceMode
  maxCredits : Int
  createdAt : String
  creditsUsed : JVal
  result : Option TaskResult

/-- `TaskResponse.from_payload(payload)`: resolve the mode, parse
`result` into a typed `TaskResult` whenever it is a dict (the
`responseSchema` key of the payload is never consulted), then build the
response (`id`/`status`/`createdAt` through `str`, `maxCredits` through
`int`). -/
def taskResponseFromPayload (p : List (String × JVal)) :
    Except TaskDecodeErr TaskResponse :=
  match serviceModeValidate (pyStrOf ((List.lookup "mode" p).getD (.jStr "standard"))) with
  | .error e => .error e
  | .ok mode =>
      let resultE : Except TaskDecodeErr (Option TaskResult) :=
        match List.lookup "result" p with
        | some (.jObj f) => (taskResultFromPayload f).map some
        | _ => .ok none
      match resultE with
      | .error e => .error e
      | .ok result =>
          match requiredField p "id" with
          | .error e => .error e
          | .ok idv =>
              match requiredField p "status" with
              | .error e => .error e
              | .ok sv =>
                  match requiredField p "maxCredits" with
                  | .error e => .error e
                  | .ok mcv =>
                      match pyIntOfJVal mcv with
                      | none => .error .typeError
                      | some mc =>
                          match requiredField p "createdAt" with
                          | .error e => .error e
                          | .ok cv =>
                              .ok { id := pyStrOf idv, status := pyStrOf sv,
                                    mode := mode, maxCredits := mc,
                                    createdAt := pyStrOf cv,
                                    creditsUsed := (List.lookup "creditsUsed" p).getD .jNull,
                                    result := result }

end CodeVF

/-- C6 (code bug): the claim — matching the repository's own tests
(`tests/test_structured_output.py`) — says that when the request/
response carries a `responseSchema`, the decoded `result` must be an
opaque raw mapping, not a typed `TaskResult`.  The code ignores
`responseSchema` entirely: on the payload with `responseSchema` present
and result body `{"message": "x", "deliverables": []}` it decodes
`result` into the typed `TaskResult` (and the `TaskResponse` dataclass
has no `response_schema` attribute at all, so the repository's own
tests fail on it). -/
theorem C6_theorem :
    CodeVF.taskResponseFromPayload
      [("id", .jStr "task_2"), ("status", .jStr "completed"),
       ("mode", .jStr "realtime_answer"), ("maxCredits", .jInt 60),
       ("createdAt", .jStr "2026-01-01T00:00:00Z"),
       ("responseSchema", .jObj [("type", .jStr "object")]),
       ("result", .jObj [("message", .jStr "x"), ("deliverables", .jArr [])])] =
      .ok { id := "task_2", status := "completed", mode := .realtimeAnswer,
            maxCredits := 60, createdAt := "2026-01-01T00:00:00Z",
            creditsUsed := .jNull,
            result := some { message := .jStr "x", deliverables := [] } } :=
  rfl
